import Mathlib

/-!
Shallow embedding of the library-listener notification subsystem of
`src/robot/output/old_listener.py`: the event router `LibraryListeners`,
the listener binding `ListenerProxy`, and the per-event method dispatcher
`LibraryListenerMethods`.  The dispatcher, the level filter (`IsLogged`)
and the combined-view attribute lookup (`ModelCombiner`) live in modules
that are not part of this repository snapshot; those definitions are
modelled from the specification and their doc comments say so.
-/

namespace OldListener

/-- The nine event kinds of `LibraryListeners._method_names`. -/
inductive MethodName where
  | start_suite
  | end_suite
  | start_test
  | end_test
  | start_keyword
  | end_keyword
  | log_message
  | message
  | close
deriving DecidableEq, Repr

/-- Modelled from the spec: the log-level taxonomy is consumed as an
ordered severity ranking (spec section 4.6, Level Filter). -/
inductive Level where
  | trace
  | debug
  | info
  | warn
  | error
  | fail
deriving DecidableEq, Repr

/-- The severity rank of a level, larger = more severe. -/
def Level.rank : Level → Nat
  | .trace => 0
  | .debug => 1
  | .info => 2
  | .warn => 3
  | .error => 4
  | .fail => 5

/-- Modelled from the spec: `IsLogged` (the Level Filter, in
`robot.output.loggerhelper`, not part of this snapshot): a message level is
forwardable iff its severity rank is at or above the threshold's rank. -/
def IsLogged (threshold level : Level) : Bool :=
  threshold.rank ≤ level.rank

/-- What one listener hook does when invoked: return normally, or raise an
error carrying the given message. -/
inductive HookBehavior where
  | ok
  | raises (m : String)
deriving DecidableEq, Repr

/-- The three version-dependent import hooks named by
`ListenerProxy.__init__` besides the keyword hooks. -/
inductive ImportHook where
  | library_import
  | resource_import
  | variables_import
deriving DecidableEq, Repr

/-- The raw `ROBOT_LISTENER_API_VERSION` attribute value: `asInt` models
Python `int(value)` (`none` when that raises ValueError or TypeError),
`shown` its rendering through the format placeholder in the error text. -/
structure AttrValue where
  asInt : Option Int
  shown : String
deriving DecidableEq, Repr

/-- A resolved live listener object: its name sources, the optional version
attribute, and the hook tables it exposes (`none` = method not defined). -/
structure ListenerObj where
  dunderName : Option String
  typeName : String
  versionAttr : Option AttrValue
  hooks : MethodName → Option HookBehavior
  importHooks : ImportHook → Option HookBehavior

/-- A listener reference as supplied to `register`: a live object, or a
textual spec.  For a textual spec, `name` is the outcome of
`split_args_from_name_or_path` and `resolved` the outcome of
`Importer.import_class_or_module` (the loader is outside this snapshot and
is consumed only through its resolve contract, so the reference carries its
own resolution outcome). -/
inductive ListenerRef where
  | obj (l : ListenerObj)
  | txt (raw : String) (name : String) (resolved : Except String ListenerObj)

/-- `ListenerProxy._import_listener`: a non-string passes through, with the
display name from `__name__` when present and the type name otherwise; a
string resolves through the importer, failures propagating as DataError. -/
def importListener : ListenerRef → Except String (ListenerObj × String)
  | .obj l => .ok (l, l.dunderName.getD l.typeName)
  | .txt _ name resolved => resolved.map fun l => (l, name)

/-- The DataError text for a missing version marker
(`ListenerProxy._get_version`, AttributeError branch). -/
def missingVersionMsg (name : String) : String :=
  "Listener '" ++ name ++
    "' does not have mandatory 'ROBOT_LISTENER_API_VERSION' attribute."

/-- The DataError text for a present but unsupported version marker
(`ListenerProxy._get_version`, ValueError/TypeError branch). -/
def unsupportedVersionMsg (name value : String) : String :=
  "Listener '" ++ name ++ "' uses unsupported API version '" ++ value ++ "'."

/-- `ListenerProxy._get_version`: read the mandatory marker, convert it with
`int`, and accept only 2 and 3. -/
def getVersion (l : ListenerObj) (name : String) : Except String Int :=
  match l.versionAttr with
  | none => .error (missingVersionMsg name)
  | some a =>
    match a.asInt with
    | none => .error (unsupportedVersionMsg name a.shown)
    | some v =>
      if v = 2 ∨ v = 3 then .ok v
      else .error (unsupportedVersionMsg name a.shown)

/-- A listener binding (`ListenerProxy`): display name, API version, the
per-event hook table and the three import hooks.  An absent hook is the
non-callable marker `none` (`_no_method = None` in the source). -/
structure ListenerProxy where
  name : String
  version : Int
  hooks : MethodName → Option HookBehavior
  library_import : Option HookBehavior
  resource_import : Option HookBehavior
  variables_import : Option HookBehavior

/-- The hook table after the version-3 adjustment in
`ListenerProxy.__init__`: `self.start_keyword = self.end_keyword = None`. -/
def nullKeywordHooks (h : MethodName → Option HookBehavior) :
    MethodName → Option HookBehavior
  | .start_keyword => none
  | .end_keyword => none
  | k => h k

/-- The binding `ListenerProxy.__init__` builds once the listener has been
resolved and its version determined.  The initial hook table coming from
`AbstractLoggerProxy` (not part of this snapshot) is modelled from the
spec: the binding exposes exactly the hooks the listener exposes; a
version-3 binding then loses the keyword hooks and the three
version-dependent hooks named above. -/
def ListenerProxy.make (l : ListenerObj) (name : String) (version : Int) :
    ListenerProxy :=
  if version = 3 then
    { name := name, version := version, hooks := nullKeywordHooks l.hooks,
      library_import := none, resource_import := none,
      variables_import := none }
  else
    { name := name, version := version, hooks := l.hooks,
      library_import := l.importHooks .library_import,
      resource_import := l.importHooks .resource_import,
      variables_import := l.importHooks .variables_import }

/-- `ListenerProxy.__init__` end to end: resolve, read the version, build
the binding. -/
def ListenerProxy.create (ref : ListenerRef) : Except String ListenerProxy := do
  let (l, name) ← importListener ref
  let version ← getVersion l name
  .ok (ListenerProxy.make l name version)

/-- The name used in the wrapper error of `import_listeners`: the raw
string for a textual reference, and `type_name` otherwise (line 130 of the
source, which does not consult `__name__`). -/
def refDisplay : ListenerRef → String
  | .obj l => l.typeName
  | .txt raw _ _ => raw

/-- The wrapper DataError text of `ListenerProxy.import_listeners`. -/
def takingFailedMsg (name err : String) : String :=
  "Taking listener '" ++ name ++ "' into use failed: " ++ err

/-- `ListenerProxy.import_listeners`: resolve each reference in order; on
success return the imported proxies together with the error texts logged
through `LOGGER.error` (possible only when `raiseOnError` is false); when
`raiseOnError` is true the first failure aborts the whole batch with the
wrapper DataError. -/
def importListeners (refs : List ListenerRef) (raiseOnError : Bool) :
    Except String (List ListenerProxy × List String) :=
  match refs with
  | [] => .ok ([], [])
  | ref :: rest =>
    match ListenerProxy.create ref with
    | .ok p =>
      (importListeners rest raiseOnError).map fun pl => (p :: pl.1, pl.2)
    | .error err =>
      let wrapped := takingFailedMsg (refDisplay ref) err
      if raiseOnError then .error wrapped
      else (importListeners rest raiseOnError).map fun pl =>
        (pl.1, wrapped :: pl.2)

/-- An attribute value in the data/result object graphs. -/
inductive Value where
  | intV (i : Int)
  | strV (s : String)
deriving DecidableEq, Repr

/-- A model or result object, seen as its attribute table. -/
structure Obj where
  attrs : List (String × Value)
deriving DecidableEq, Repr

/-- Attribute lookup on one object (`none` models AttributeError). -/
def Obj.getattr (o : Obj) (name : String) : Option Value :=
  (o.attrs.find? fun kv => kv.1 == name).map Prod.snd

/-- The combined view handed to listener methods: the two source objects
and the explicit named overrides passed to the constructor. -/
structure ModelCombiner where
  data : Obj
  result : Obj
  priority : List (String × Value)
deriving DecidableEq, Repr

/-- Modelled from the spec: the View Composer attribute lookup
(`robot.output.modelcombiner`, not part of this snapshot) — explicit named
overrides bypass the order entirely, otherwise the result object is tried
first with the static data object as fallback (spec section 4.2). -/
def ModelCombiner.get (c : ModelCombiner) (name : String) : Option Value :=
  match (c.priority.find? fun kv => kv.1 == name).map Prod.snd with
  | some v => some v
  | none =>
    match c.result.getattr name with
    | some v => some v
    | none => c.data.getattr name

/-- The static `running.TestSuite` handed to `start_suite`: the three
attributes the router reads explicitly, plus the rest of the object. -/
structure RunningSuite where
  tests : Value
  suites : Value
  test_count : Value
  rest : Obj
deriving DecidableEq, Repr

/-- The suite data object seen as a plain attribute table. -/
def RunningSuite.toObj (s : RunningSuite) : Obj :=
  ⟨("tests", s.tests) :: ("suites", s.suites) ::
    ("test_count", s.test_count) :: s.rest.attrs⟩

/-- A log/message event payload (`model.Message`). -/
structure Message where
  level : Level
  text : String
deriving DecidableEq, Repr

/-- What a dispatcher hands to a hook: a combined view, a message, or the
library argument of a close notification. -/
inductive Payload where
  | combined (c : ModelCombiner)
  | msg (m : Message)
  | libraryArg (lib : String)
deriving DecidableEq, Repr

/-- One delivered hook invocation: which listener, for which event kind,
with which payload. -/
structure Call where
  listener : String
  kind : MethodName
  payload : Payload
deriving DecidableEq, Repr

/-- One isolated notification failure, logged with the listener's display
name and the error message. -/
structure LoggedError where
  listener : String
  errMsg : String
deriving DecidableEq, Repr

/-- Modelled from the spec: the per-event Method Dispatcher
(`LibraryListenerMethods` of `robot.output.listenermethods`, not part of
this snapshot): the active binding set keyed by owning library, kept in
registration order, plus the stack of suite-scope checkpoints (spec
section 4.5). -/
structure LibraryListenerMethods where
  methodName : MethodName
  active : List (String × ListenerProxy)
  scopes : List (List (String × ListenerProxy))

/-- Modelled from the spec: dispatcher invocation — every active binding in
registration order whose hook for this event kind is present is called
with the payload; a binding whose hook is the absent marker is skipped
without attempting a call. -/
def notifyCalls (kind : MethodName) (active : List (String × ListenerProxy))
    (p : Payload) : List Call :=
  active.filterMap fun lp => (lp.2.hooks kind).map fun _ => ⟨lp.2.name, kind, p⟩

/-- Modelled from the spec: a raised error from one listener is caught and
logged with the listener's display name and the error message, and does
not prevent remaining bindings from being notified. -/
def notifyErrs (kind : MethodName) (active : List (String × ListenerProxy)) :
    List LoggedError :=
  active.filterMap fun lp =>
    match lp.2.hooks kind with
    | some (.raises m) => some ⟨lp.2.name, m⟩
    | _ => none

/-- One dispatch pass: the calls delivered and the errors logged. -/
def LibraryListenerMethods.notify (d : LibraryListenerMethods) (p : Payload) :
    List Call × List LoggedError :=
  (notifyCalls d.methodName d.active p, notifyErrs d.methodName d.active)

/-- Modelled from the spec: the close-kind dispatcher invoked for one
library — every binding owned by that library whose hook is present, in
registration order, with failures isolated (spec section 4.5). -/
def LibraryListenerMethods.notifyLibrary (d : LibraryListenerMethods)
    (library : String) : List Call × List LoggedError :=
  (notifyCalls d.methodName (d.active.filter fun lp => lp.1 == library)
     (.libraryArg library),
   notifyErrs d.methodName (d.active.filter fun lp => lp.1 == library))

/-- Modelled from the spec: `register` appends the bindings to the active
set under the owning library key (spec section 4.5). -/
def LibraryListenerMethods.register (d : LibraryListenerMethods)
    (proxies : List ListenerProxy) (library : String) :
    LibraryListenerMethods :=
  { d with active := d.active ++ proxies.map fun p => (library, p) }

/-- Modelled from the spec: `unregister` removes all bindings owned by that
library from the active set (spec section 4.5). -/
def LibraryListenerMethods.unregister (d : LibraryListenerMethods)
    (library : String) : LibraryListenerMethods :=
  { d with active := d.active.filter fun lp => lp.1 != library }

/-- Modelled from the spec: push a checkpoint recording the current
active-set contents (spec section 4.5). -/
def LibraryListenerMethods.new_suite_scope (d : LibraryListenerMethods) :
    LibraryListenerMethods :=
  { d with scopes := d.active :: d.scopes }

/-- Modelled from the spec: pop the most recent checkpoint and remove any
bindings added after it was pushed, restoring the prior set.  Popping with
no matching push is a contract violation, not expected under correct
engine usage; it is modelled as the identity. -/
def LibraryListenerMethods.discard_suite_scope (d : LibraryListenerMethods) :
    LibraryListenerMethods :=
  match d.scopes with
  | snap :: rest => { d with active := snap, scopes := rest }
  | [] => d

/-- The class-level `_methods` dict of `LibraryListeners`, declared at
class scope and mutated in place by `__init__`: it is one shared state
value that every router instance reads and mutates, not per-instance
state. -/
def MethodsDict : Type := MethodName → Option LibraryListenerMethods

/-- The initial value of the class attribute: the empty dict. -/
def emptyMethods : MethodsDict := fun _ => none

/-- A `LibraryListeners` router instance: the only per-instance state is
the level filter threshold (`self._is_logged`). -/
structure LibraryListeners where
  log_level : Level
deriving DecidableEq, Repr

/-- `LibraryListeners.__init__`: store the threshold and assign a fresh
dispatcher to every method name in the shared class-level dict,
irrespective of what the dict held before. -/
def LibraryListeners.init (_ms : MethodsDict) (log_level : Level) :
    LibraryListeners × MethodsDict :=
  (⟨log_level⟩, fun name => some ⟨name, [], []⟩)

/-- Indexing the shared dict, `self._methods[name](payload)`.  After any
`__init__` every name is present; a missing key would be a Python
KeyError and is modelled as an empty dispatch. -/
def dispatchTo (ms : MethodsDict) (name : MethodName) (p : Payload) :
    List Call × List LoggedError :=
  match ms name with
  | some d => d.notify p
  | none => ([], [])

/-- The combined view built by `start_suite`: `tests`, `suites` and
`test_count` are passed as explicit named overrides read from the static
data model. -/
def startSuiteView (data : RunningSuite) (result : Obj) : ModelCombiner :=
  ⟨data.toObj, result,
   [("tests", data.tests), ("suites", data.suites),
    ("test_count", data.test_count)]⟩

/-- The combined view built by every other entry point: no overrides. -/
def plainView (data result : Obj) : ModelCombiner :=
  ⟨data, result, []⟩

/-- `LibraryListeners.start_suite`. -/
def LibraryListeners.start_suite (_r : LibraryListeners) (ms : MethodsDict)
    (data : RunningSuite) (result : Obj) : List Call × List LoggedError :=
  dispatchTo ms .start_suite (.combined (startSuiteView data result))

/-- `LibraryListeners.end_suite`. -/
def LibraryListeners.end_suite (_r : LibraryListeners) (ms : MethodsDict)
    (data result : Obj) : List Call × List LoggedError :=
  dispatchTo ms .end_suite (.combined (plainView data result))

/-- `LibraryListeners.start_test`. -/
def LibraryListeners.start_test (_r : LibraryListeners) (ms : MethodsDict)
    (data result : Obj) : List Call × List LoggedError :=
  dispatchTo ms .start_test (.combined (plainView data result))

/-- `LibraryListeners.end_test`. -/
def LibraryListeners.end_test (_r : LibraryListeners) (ms : MethodsDict)
    (data result : Obj) : List Call × List LoggedError :=
  dispatchTo ms .end_test (.combined (plainView data result))

/-- Body-item node types (`data.type`); `IF_ELSE_ROOT` and
`TRY_EXCEPT_ROOT` are the synthetic control-flow container nodes. -/
inductive BodyItemType where
  | KEYWORD
  | SETUP
  | TEARDOWN
  | FOR
  | WHILE
  | ITERATION
  | IF
  | ELSE_IF
  | ELSE
  | TRY
  | EXCEPT
  | FINALLY
  | RETURN
  | BREAK
  | CONTINUE
  | IF_ELSE_ROOT
  | TRY_EXCEPT_ROOT
deriving DecidableEq, Repr

/-- A body-item data node: its type and its attribute surface. -/
structure BodyItemData where
  type : BodyItemType
  obj : Obj
deriving DecidableEq, Repr

/-- `LibraryListeners.start_body_item`: forwarded as a keyword notification
unless the node is an if/else or try/except container. -/
def LibraryListeners.start_body_item (_r : LibraryListeners)
    (ms : MethodsDict) (data : BodyItemData) (result : Obj) :
    List Call × List LoggedError :=
  if data.type ≠ .IF_ELSE_ROOT ∧ data.type ≠ .TRY_EXCEPT_ROOT then
    dispatchTo ms .start_keyword (.combined (plainView data.obj result))
  else ([], [])

/-- `LibraryListeners.end_body_item`: same filter as `start_body_item`. -/
def LibraryListeners.end_body_item (_r : LibraryListeners)
    (ms : MethodsDict) (data : BodyItemData) (result : Obj) :
    List Call × List LoggedError :=
  if data.type ≠ .IF_ELSE_ROOT ∧ data.type ≠ .TRY_EXCEPT_ROOT then
    dispatchTo ms .end_keyword (.combined (plainView data.obj result))
  else ([], [])

/-- `LibraryListeners.register`: resolve the references with
raise_on_error=True, then add the proxies to every dispatcher.  On a
DataError the exception propagates before any dispatcher is touched, so no
binding is added: the error case carries no new state. -/
def LibraryListeners.register (_r : LibraryListeners) (ms : MethodsDict)
    (refs : List ListenerRef) (library : String) :
    Except String MethodsDict :=
  (importListeners refs true).map fun pl =>
    fun name => (ms name).map fun d => d.register pl.1 library

/-- `LibraryListeners.unregister`: when the close flag is set and the close
dispatcher is present, it is invoked for that library first (over the
pre-removal active set); then every dispatcher removes that library's
bindings. -/
def LibraryListeners.unregister (_r : LibraryListeners) (ms : MethodsDict)
    (library : String) (closeFlag : Bool) :
    (List Call × List LoggedError) × MethodsDict :=
  let closeOut :=
    if closeFlag then
      match ms .close with
      | some d => d.notifyLibrary library
      | none => ([], [])
    else ([], [])
  (closeOut, fun name => (ms name).map fun d => d.unregister library)

/-- `LibraryListeners.new_suite_scope`: forwarded to every dispatcher. -/
def LibraryListeners.new_suite_scope (ms : MethodsDict) : MethodsDict :=
  fun name => (ms name).map LibraryListenerMethods.new_suite_scope

/-- `LibraryListeners.discard_suite_scope`: forwarded to every
dispatcher. -/
def LibraryListeners.discard_suite_scope (ms : MethodsDict) : MethodsDict :=
  fun name => (ms name).map LibraryListenerMethods.discard_suite_scope

/-- `LibraryListeners.set_log_level`. -/
def LibraryListeners.set_log_level (_r : LibraryListeners) (level : Level) :
    LibraryListeners :=
  ⟨level⟩

/-- `LibraryListeners.log_message`: forwarded iff the level filter accepts
the message level under the current threshold. -/
def LibraryListeners.log_message (r : LibraryListeners) (ms : MethodsDict)
    (m : Message) : List Call × List LoggedError :=
  if IsLogged r.log_level m.level then dispatchTo ms .log_message (.msg m)
  else ([], [])

/-- `LibraryListeners.message`: forwarded unconditionally. -/
def LibraryListeners.message (_r : LibraryListeners) (ms : MethodsDict)
    (m : Message) : List Call × List LoggedError :=
  dispatchTo ms .message (.msg m)

/-! Demonstration listeners and router states, used to instantiate the
theorems below at concrete inputs. -/

/-- A demonstration hook table exposing every hook, all returning
normally. -/
def demoHooks : MethodName → Option HookBehavior := fun _ => some .ok

/-- A well-formed version-2 demonstration listener. -/
def demoV2 : ListenerObj :=
  ⟨some "DemoV2", "DemoV2Type", some ⟨some 2, "2"⟩, demoHooks,
   fun _ => some .ok⟩

/-- A well-formed version-3 demonstration listener. -/
def demoV3 : ListenerObj :=
  ⟨some "DemoV3", "DemoV3Type", some ⟨some 3, "3"⟩, demoHooks,
   fun _ => some .ok⟩

/-- A listener with no version marker at all. -/
def demoNoVersion : ListenerObj :=
  ⟨none, "NoVersionType", none, demoHooks, fun _ => none⟩

/-- A listener whose version marker is present but unsupported. -/
def demoBadVersion : ListenerObj :=
  ⟨some "BadVersion", "BadVersionType", some ⟨some 1, "1"⟩, demoHooks,
   fun _ => none⟩

/-- The binding resolved from `demoV2`. -/
def demoProxyV2 : ListenerProxy := ListenerProxy.make demoV2 "DemoV2" 2

/-- The binding resolved from `demoV3`. -/
def demoProxyV3 : ListenerProxy := ListenerProxy.make demoV3 "DemoV3" 3

/-- A binding registered before the scenarios below start. -/
def demoOld : ListenerProxy := ⟨"old", 2, demoHooks, none, none, none⟩

/-- A shared dict in which every dispatcher already holds one binding owned
by library "libA". -/
def demoMs : MethodsDict := fun name => some ⟨name, [("libA", demoOld)], []⟩

/-- A router with the default INFO threshold. -/
def demoRouter : LibraryListeners := ⟨.info⟩

/-- A demonstration message at INFO level. -/
def demoMsg : Message := ⟨.info, "hello"⟩

/-! Helper lemmas shared by the claim theorems. -/

/-- `ListenerProxy.create` on a live object is version resolution followed
by `make`. -/
theorem create_obj (l : ListenerObj) :
    ListenerProxy.create (.obj l) =
      (getVersion l (l.dunderName.getD l.typeName)).map
        (ListenerProxy.make l (l.dunderName.getD l.typeName)) := by
  cases h : getVersion l (l.dunderName.getD l.typeName) <;>
    simp [ListenerProxy.create, importListener, h, Except.map, Bind.bind,
      Except.bind]

/-- `register` on a single unresolvable reference propagates the wrapped
DataError. -/
theorem register_single_error (r : LibraryListeners) (ms : MethodsDict)
    (lib : String) (ref : ListenerRef) (e : String)
    (h : ListenerProxy.create ref = .error e) :
    r.register ms [ref] lib = .error (takingFailedMsg (refDisplay ref) e) := by
  simp [LibraryListeners.register, importListeners, h, Except.map]

/-- References that all resolve contribute their proxies in input order,
in front of whatever the remaining references produce. -/
theorem importListeners_resolved_front (raiseOnError : Bool)
    (pre : List ListenerRef) (ps : List ListenerProxy)
    (hpre : pre.map ListenerProxy.create = ps.map Except.ok)
    (rest : List ListenerRef) :
    importListeners (pre ++ rest) raiseOnError =
      (importListeners rest raiseOnError).map fun pl => (ps ++ pl.1, pl.2) := by
  induction pre generalizing ps with
  | nil =>
    have hps : ps = [] := by cases ps <;> simp_all
    subst hps
    cases h : importListeners rest raiseOnError <;> simp [Except.map, h]
  | cons r pre ih =>
    cases ps with
    | nil => simp at hpre
    | cons p ps =>
      simp only [List.map_cons, List.cons.injEq] at hpre
      obtain ⟨hr, hrest⟩ := hpre
      simp only [List.cons_append, importListeners, hr]
      rw [List.append_eq, ih ps hrest]
      cases h : importListeners rest raiseOnError <;> simp [Except.map, h]

/-! The claim theorems. -/

/-- C1: for every listener whose `ROBOT_LISTENER_API_VERSION` marker is
missing or does not convert to 2 or 3, constructing the binding fails with
a DataError naming the listener — the unsupported-version text including
the offending value whenever the marker is present — and `register` then
fails with the wrapped DataError carrying no updated dispatcher state, so
no binding is added to any dispatcher's active set. -/
theorem invalid_version_marker_rejected
    (l : ListenerObj) (r : LibraryListeners) (ms : MethodsDict) (lib : String)
    (hbad : l.versionAttr = none ∨
      ∃ a, l.versionAttr = some a ∧
        (a.asInt = none ∨ ∃ v, a.asInt = some v ∧ v ≠ 2 ∧ v ≠ 3)) :
    ∃ e, ListenerProxy.create (.obj l) = .error e ∧
      ((l.versionAttr = none ∧
          e = missingVersionMsg (l.dunderName.getD l.typeName)) ∨
       (∃ a, l.versionAttr = some a ∧
          e = unsupportedVersionMsg (l.dunderName.getD l.typeName) a.shown)) ∧
      r.register ms [.obj l] lib = .error (takingFailedMsg l.typeName e) := by
  have hver : ∃ e, getVersion l (l.dunderName.getD l.typeName) = .error e ∧
      ((l.versionAttr = none ∧
          e = missingVersionMsg (l.dunderName.getD l.typeName)) ∨
       (∃ a, l.versionAttr = some a ∧
          e = unsupportedVersionMsg (l.dunderName.getD l.typeName) a.shown)) := by
    rcases hbad with hnone | ⟨a, ha, hbad2⟩
    · exact ⟨_, by simp [getVersion, hnone], Or.inl ⟨hnone, rfl⟩⟩
    · rcases hbad2 with hint | ⟨v, hv, hv2, hv3⟩
      · exact ⟨_, by simp [getVersion, ha, hint], Or.inr ⟨a, ha, rfl⟩⟩
      · refine ⟨_, ?_, Or.inr ⟨a, ha, rfl⟩⟩
        simp only [getVersion, ha, hv]
        rw [if_neg]
        rintro (h2 | h3)
        · exact hv2 h2
        · exact hv3 h3
  obtain ⟨e, he, hshape⟩ := hver
  have hcreate : ListenerProxy.create (.obj l) = .error e := by
    rw [create_obj, he]; rfl
  exact ⟨e, hcreate, hshape,
    register_single_error r ms lib (.obj l) e hcreate⟩

/-- C1 witness: the present-but-unsupported marker value 1 is rejected
concretely, and so is registration. -/
theorem invalid_version_marker_rejected_witness :
    (demoBadVersion.versionAttr = none ∨
      ∃ a, demoBadVersion.versionAttr = some a ∧
        (a.asInt = none ∨ ∃ v, a.asInt = some v ∧ v ≠ 2 ∧ v ≠ 3)) ∧
    (∃ e, ListenerProxy.create (.obj demoBadVersion) = .error e ∧
      ((demoBadVersion.versionAttr = none ∧
          e = missingVersionMsg
            (demoBadVersion.dunderName.getD demoBadVersion.typeName)) ∨
       (∃ a, demoBadVersion.versionAttr = some a ∧
          e = unsupportedVersionMsg
            (demoBadVersion.dunderName.getD demoBadVersion.typeName) a.shown)) ∧
      demoRouter.register demoMs [.obj demoBadVersion] "libB" =
        .error (takingFailedMsg demoBadVersion.typeName e)) :=
  ⟨Or.inr ⟨⟨some 1, "1"⟩, rfl, Or.inr ⟨1, rfl, by decide, by decide⟩⟩,
   invalid_version_marker_rejected demoBadVersion demoRouter demoMs "libB"
     (Or.inr ⟨⟨some 1, "1"⟩, rfl, Or.inr ⟨1, rfl, by decide, by decide⟩⟩)⟩

/-- C2: during one dispatch pass, an error raised by one binding's hook is
caught and logged with that listener's display name and the error message,
and every other active binding — before and after it in registration
order — still receives the same notification. -/
theorem raising_listener_isolated
    (kind : MethodName) (pre post : List (String × ListenerProxy))
    (lib : String) (b : ListenerProxy) (m : String) (p : Payload)
    (scopes : List (List (String × ListenerProxy)))
    (hb : b.hooks kind = some (.raises m)) :
    LibraryListenerMethods.notify ⟨kind, pre ++ (lib, b) :: post, scopes⟩ p =
      (notifyCalls kind pre p ++ ⟨b.name, kind, p⟩ :: notifyCalls kind post p,
       notifyErrs kind pre ++ ⟨b.name, m⟩ :: notifyErrs kind post) := by
  simp [LibraryListenerMethods.notify, notifyCalls, notifyErrs,
    List.filterMap_append, List.filterMap_cons, hb]

/-- A hook table raising "boom" on every event. -/
def raisingHooks : MethodName → Option HookBehavior :=
  fun _ => some (.raises "boom")

/-- A binding that returns normally, named "okA". -/
def wOkA : ListenerProxy := ⟨"okA", 2, demoHooks, none, none, none⟩

/-- A binding that returns normally, named "okB". -/
def wOkB : ListenerProxy := ⟨"okB", 2, demoHooks, none, none, none⟩

/-- A binding that raises on every hook. -/
def wRaise : ListenerProxy := ⟨"raiser", 2, raisingHooks, none, none, none⟩

/-- C2 witness: of three active listeners the middle one raises during a
log_message dispatch; the other two still receive that same call, and the
failure is logged with the raiser's name and message. -/
theorem raising_listener_isolated_witness :
    LibraryListenerMethods.notify
        ⟨.log_message, [("L", wOkA), ("L", wRaise), ("L", wOkB)], []⟩
        (.msg demoMsg) =
      ([⟨"okA", .log_message, .msg demoMsg⟩,
        ⟨"raiser", .log_message, .msg demoMsg⟩,
        ⟨"okB", .log_message, .msg demoMsg⟩],
       [⟨"raiser", "boom"⟩]) := by
  have h := raising_listener_isolated .log_message [("L", wOkA)] [("L", wOkB)]
    "L" wRaise "boom" (.msg demoMsg) [] rfl
  exact h.trans (by decide)

/-- C3: for a batch in which exactly one reference fails to resolve,
raise_on_error=true aborts with the wrapped DataError naming the offending
reference and yields no bindings, while raise_on_error=false logs exactly
that one error, skips only the failing reference, and returns the
remaining bindings in input order. -/
theorem one_failing_reference_policies
    (pre post : List ListenerRef) (bad : ListenerRef)
    (ps qs : List ListenerProxy) (e : String)
    (hpre : pre.map ListenerProxy.create = ps.map Except.ok)
    (hpost : post.map ListenerProxy.create = qs.map Except.ok)
    (hbad : ListenerProxy.create bad = .error e) :
    importListeners (pre ++ bad :: post) true =
        .error (takingFailedMsg (refDisplay bad) e) ∧
      importListeners (pre ++ bad :: post) false =
        .ok (ps ++ qs, [takingFailedMsg (refDisplay bad) e]) ∧
      ps.length + qs.length = pre.length + post.length := by
  have hlen1 : pre.length = ps.length := by
    have h := congrArg List.length hpre; simpa using h
  have hlen2 : post.length = qs.length := by
    have h := congrArg List.length hpost; simpa using h
  have hpost2 : importListeners post false = .ok (qs, []) := by
    have h := importListeners_resolved_front false post qs hpost []
    simpa [importListeners, Except.map] using h
  refine ⟨?_, ?_, by omega⟩
  · rw [importListeners_resolved_front true pre ps hpre]
    simp [importListeners, hbad, Except.map]
  · rw [importListeners_resolved_front false pre ps hpre]
    simp [importListeners, hbad, hpost2, Except.map]

/-- C3 witness: of three references the middle one lacks the version
marker; with raise_on_error=true the batch aborts, with false the two
sound references are returned in order with one logged error. -/
theorem one_failing_reference_policies_witness :
    ([ListenerRef.obj demoV2].map ListenerProxy.create =
        [demoProxyV2].map Except.ok) ∧
    ([ListenerRef.obj demoV3].map ListenerProxy.create =
        [demoProxyV3].map Except.ok) ∧
    (ListenerProxy.create (.obj demoNoVersion) =
        .error (missingVersionMsg "NoVersionType")) ∧
    (importListeners
          [.obj demoV2, .obj demoNoVersion, .obj demoV3] true =
        .error (takingFailedMsg (refDisplay (.obj demoNoVersion))
          (missingVersionMsg "NoVersionType")) ∧
      importListeners
          [.obj demoV2, .obj demoNoVersion, .obj demoV3] false =
        .ok ([demoProxyV2] ++ [demoProxyV3],
          [takingFailedMsg (refDisplay (.obj demoNoVersion))
            (missingVersionMsg "NoVersionType")]) ∧
      [demoProxyV2].length + [demoProxyV3].length =
        [ListenerRef.obj demoV2].length + [ListenerRef.obj demoV3].length) :=
  ⟨rfl, rfl, rfl,
   one_failing_reference_policies [.obj demoV2] [.obj demoV3]
     (.obj demoNoVersion) [demoProxyV2] [demoProxyV3]
     (missingVersionMsg "NoVersionType") rfl rfl rfl⟩

/-- C4: a binding constructed with API version 3 has the start_keyword and
end_keyword hooks and the three import hooks set to the absent marker, so
a keyword dispatch over it delivers nothing and never calls into the
plugin; a version-2 binding keeps exactly the keyword hooks its listener
exposes and, when such a hook is present, a keyword dispatch invokes it. -/
theorem v3_keyword_hooks_absent (l : ListenerObj) (name : String) :
    ((ListenerProxy.make l name 3).hooks .start_keyword = none ∧
     (ListenerProxy.make l name 3).hooks .end_keyword = none ∧
     (ListenerProxy.make l name 3).library_import = none ∧
     (ListenerProxy.make l name 3).resource_import = none ∧
     (ListenerProxy.make l name 3).variables_import = none) ∧
    (∀ (lib : String) (scopes : List (List (String × ListenerProxy)))
       (p : Payload),
      LibraryListenerMethods.notify
          ⟨.start_keyword, [(lib, ListenerProxy.make l name 3)], scopes⟩ p =
        ([], []) ∧
      LibraryListenerMethods.notify
          ⟨.end_keyword, [(lib, ListenerProxy.make l name 3)], scopes⟩ p =
        ([], [])) ∧
    ((ListenerProxy.make l name 2).hooks .start_keyword =
        l.hooks .start_keyword ∧
     (ListenerProxy.make l name 2).hooks .end_keyword =
        l.hooks .end_keyword) ∧
    (∀ hb, l.hooks .start_keyword = some hb →
      ∀ (lib : String) (scopes : List (List (String × ListenerProxy)))
        (p : Payload),
      (LibraryListenerMethods.notify
          ⟨.start_keyword, [(lib, ListenerProxy.make l name 2)], scopes⟩
          p).1 =
        [⟨name, .start_keyword, p⟩]) := by
  refine ⟨⟨rfl, rfl, rfl, rfl, rfl⟩, fun lib scopes p => ⟨rfl, rfl⟩,
    ⟨rfl, rfl⟩, ?_⟩
  intro hb hhb lib scopes p
  have hmake : (ListenerProxy.make l name 2).hooks = l.hooks := rfl
  have hname2 : (ListenerProxy.make l name 2).name = name := rfl
  simp [LibraryListenerMethods.notify, notifyCalls, hmake, hname2, hhb]

/-- C4 witness: a concrete version-3 binding delivers no keyword call even
though its listener exposes the hook; a concrete version-2 binding with
the hook present is invoked. -/
theorem v3_keyword_hooks_absent_witness :
    (LibraryListenerMethods.notify
        ⟨.start_keyword, [("libB", ListenerProxy.make demoV3 "DemoV3" 3)], []⟩
        (.msg demoMsg) = ([], [])) ∧
    ((LibraryListenerMethods.notify
        ⟨.start_keyword, [("libB", ListenerProxy.make demoV2 "DemoV2" 2)], []⟩
        (.msg demoMsg)).1 = [⟨"DemoV2", .start_keyword, .msg demoMsg⟩]) :=
  ⟨((v3_keyword_hooks_absent demoV3 "DemoV3").2.1 "libB" [] (.msg demoMsg)).1,
   (v3_keyword_hooks_absent demoV2 "DemoV2").2.2.2 .ok rfl "libB" []
     (.msg demoMsg)⟩

/-- C5: a body-item start or end event whose data node is an if/else or
try/except root container dispatches no keyword notification at all; every
other body-item event performs exactly one keyword dispatch carrying the
combined (data, result) view. -/
theorem body_item_container_filter (r : LibraryListeners) (ms : MethodsDict)
    (data : BodyItemData) (result : Obj) :
    ((data.type = .IF_ELSE_ROOT ∨ data.type = .TRY_EXCEPT_ROOT) →
      r.start_body_item ms data result = ([], []) ∧
      r.end_body_item ms data result = ([], [])) ∧
    (data.type ≠ .IF_ELSE_ROOT ∧ data.type ≠ .TRY_EXCEPT_ROOT →
      r.start_body_item ms data result =
        dispatchTo ms .start_keyword (.combined (plainView data.obj result)) ∧
      r.end_body_item ms data result =
        dispatchTo ms .end_keyword (.combined (plainView data.obj result))) := by
  constructor
  · intro h
    have hcond : ¬(data.type ≠ .IF_ELSE_ROOT ∧ data.type ≠ .TRY_EXCEPT_ROOT) := by
      rcases h with h | h <;> simp [h]
    exact ⟨by simp [LibraryListeners.start_body_item, hcond],
           by simp [LibraryListeners.end_body_item, hcond]⟩
  · intro h
    exact ⟨by simp [LibraryListeners.start_body_item, h],
           by simp [LibraryListeners.end_body_item, h]⟩

/-- An attribute surface for demonstration body items. -/
def demoBodyObj : Obj := ⟨[("name", .strV "kw")]⟩

/-- A synthetic if/else root container node. -/
def demoContainer : BodyItemData := ⟨.IF_ELSE_ROOT, demoBodyObj⟩

/-- An ordinary keyword node. -/
def demoKeyword : BodyItemData := ⟨.KEYWORD, demoBodyObj⟩

/-- C5 witness: the if/else root node is filtered out, the ordinary keyword
node is dispatched with the combined view. -/
theorem body_item_container_filter_witness :
    (demoRouter.start_body_item demoMs demoContainer demoBodyObj = ([], []) ∧
     demoRouter.end_body_item demoMs demoContainer demoBodyObj = ([], [])) ∧
    (demoRouter.start_body_item demoMs demoKeyword demoBodyObj =
        dispatchTo demoMs .start_keyword
          (.combined (plainView demoKeyword.obj demoBodyObj)) ∧
     demoRouter.end_body_item demoMs demoKeyword demoBodyObj =
        dispatchTo demoMs .end_keyword
          (.combined (plainView demoKeyword.obj demoBodyObj))) :=
  ⟨(body_item_container_filter demoRouter demoMs demoContainer demoBodyObj).1
      (Or.inl rfl),
   (body_item_container_filter demoRouter demoMs demoKeyword demoBodyObj).2
      ⟨by decide, by decide⟩⟩

/-- C6: the dispatcher registry is class-level shared state — modelled as
the one `MethodsDict` value all router instances read — and running
`__init__` for a second router assigns a fresh empty dispatcher to every
method name irrespective of the dict's prior contents, so the mapping the
two routers observe afterwards is one and the same, the dispatcher objects
(and with them every previously registered binding) are replaced, and a
dispatch the first router subsequently performs through the shared dict
reaches no binding registered before the second construction. -/
theorem class_level_methods_shared_reset
    (ms ms2 : MethodsDict) (level level2 : Level) (name : MethodName)
    (p : Payload) :
    (LibraryListeners.init ms level).2 name = some ⟨name, [], []⟩ ∧
    (LibraryListeners.init ms level).2 = (LibraryListeners.init ms2 level2).2 ∧
    dispatchTo (LibraryListeners.init ms level).2 name p = ([], []) :=
  ⟨rfl, rfl, rfl⟩

/-- C7: the generic message entry point forwards unconditionally; the
log_message entry point forwards exactly when the level filter accepts the
message level under the current threshold; suite and test start/end events
do not depend on the threshold at all. -/
theorem log_level_filtering
    (r r2 : LibraryListeners) (ms : MethodsDict) (m : Message)
    (sdata : RunningSuite) (sres : Obj) (data result : Obj) :
    r.message ms m = dispatchTo ms .message (.msg m) ∧
    (IsLogged r.log_level m.level = true →
      r.log_message ms m = dispatchTo ms .log_message (.msg m)) ∧
    (IsLogged r.log_level m.level = false →
      r.log_message ms m = ([], [])) ∧
    r.start_suite ms sdata sres = r2.start_suite ms sdata sres ∧
    r.end_suite ms data result = r2.end_suite ms data result ∧
    r.start_test ms data result = r2.start_test ms data result ∧
    r.end_test ms data result = r2.end_test ms data result := by
  refine ⟨rfl, ?_, ?_, rfl, rfl, rfl, rfl⟩ <;>
    intro h <;> simp [LibraryListeners.log_message, h]

/-- A router whose threshold is WARN. -/
def warnRouter : LibraryListeners := ⟨.warn⟩

/-- An INFO-level message. -/
def infoMsg : Message := ⟨.info, "i"⟩

/-- An ERROR-level message. -/
def errorMsg : Message := ⟨.error, "e"⟩

/-- A demonstration suite data object. -/
def demoSuite : RunningSuite :=
  ⟨.strV "tests", .strV "suites", .intV 2, demoBodyObj⟩

/-- C7 witness: with threshold WARN an ERROR message is forwarded and an
INFO message is dropped. -/
theorem log_level_filtering_witness :
    (IsLogged warnRouter.log_level errorMsg.level = true ∧
      warnRouter.log_message demoMs errorMsg =
        dispatchTo demoMs .log_message (.msg errorMsg)) ∧
    (IsLogged warnRouter.log_level infoMsg.level = false ∧
      warnRouter.log_message demoMs infoMsg = ([], [])) :=
  ⟨⟨rfl, (log_level_filtering warnRouter demoRouter demoMs errorMsg demoSuite
      demoBodyObj demoBodyObj demoBodyObj).2.1 rfl⟩,
   ⟨rfl, (log_level_filtering warnRouter demoRouter demoMs infoMsg demoSuite
      demoBodyObj demoBodyObj demoBodyObj).2.2.1 rfl⟩⟩

/-- C8: after new_suite_scope(); register(L); discard_suite_scope() every
dispatcher is restored exactly to its prior state: bindings registered
before the checkpoint remain active, the newly registered listener is gone
from every active set, and — the dispatcher state being identical to the
prior one — it receives no further notifications. -/
theorem scope_register_discard_restores
    (r : LibraryListeners) (ms : MethodsDict) (refs : List ListenerRef)
    (lib : String) (ms2 : MethodsDict) (name : MethodName)
    (d : LibraryListenerMethods)
    (hreg : r.register (LibraryListeners.new_suite_scope ms) refs lib =
      .ok ms2)
    (hname : ms name = some d) :
    LibraryListeners.discard_suite_scope ms2 name = some d := by
  unfold LibraryListeners.register at hreg
  cases himp : importListeners refs true with
  | error e => rw [himp] at hreg; simp [Except.map] at hreg
  | ok pl =>
    rw [himp] at hreg
    simp only [Except.map, Except.ok.injEq] at hreg
    subst hreg
    cases d with
    | mk mn act sc =>
      simp [LibraryListeners.discard_suite_scope,
        LibraryListeners.new_suite_scope, hname,
        LibraryListenerMethods.new_suite_scope,
        LibraryListenerMethods.register,
        LibraryListenerMethods.discard_suite_scope]

/-- A well-formed reference used in the scope scenario. -/
def demoRefV2 : ListenerRef := .obj demoV2

/-- The shared dict after new_suite_scope(); register([demoRefV2], "libB")
starting from `demoMs`. -/
def demoMs2 : MethodsDict := fun name =>
  some ((LibraryListenerMethods.new_suite_scope
    ⟨name, [("libA", demoOld)], []⟩).register [demoProxyV2] "libB")

/-- C8 witness: the scope sequence run concretely restores the dispatcher
holding only the pre-checkpoint binding. -/
theorem scope_register_discard_restores_witness :
    (demoRouter.register (LibraryListeners.new_suite_scope demoMs)
        [demoRefV2] "libB" = .ok demoMs2) ∧
    (demoMs .log_message = some ⟨.log_message, [("libA", demoOld)], []⟩) ∧
    LibraryListeners.discard_suite_scope demoMs2 .log_message =
      some ⟨.log_message, [("libA", demoOld)], []⟩ :=
  ⟨rfl, rfl,
   scope_register_discard_restores demoRouter demoMs [demoRefV2] "libB"
     demoMs2 .log_message ⟨.log_message, [("libA", demoOld)], []⟩ rfl rfl⟩

/-- C9: unregister(library, close): with the close flag set the close-kind
dispatcher is invoked for that library over the pre-removal active set
(its bindings in registration order, owned by that library, present hooks
only); with the flag unset no close notification happens; in both cases no
dispatcher retains a binding owned by that library afterwards. -/
theorem unregister_close_then_remove
    (r : LibraryListeners) (ms : MethodsDict) (lib : String) :
    (∀ d, ms .close = some d →
      (r.unregister ms lib true).1 = d.notifyLibrary lib) ∧
    (r.unregister ms lib false).1 =
      (([] : List Call), ([] : List LoggedError)) ∧
    (∀ (b : Bool) (name : MethodName) (d2 : LibraryListenerMethods),
      (r.unregister ms lib b).2 name = some d2 →
      ∀ lp ∈ d2.active, lp.1 ≠ lib) := by
  refine ⟨?_, rfl, ?_⟩
  · intro d hd
    simp [LibraryListeners.unregister, hd]
  · intro b name d2 hd2 lp hlp
    simp only [LibraryListeners.unregister] at hd2
    cases h : ms name with
    | none => rw [h] at hd2; simp at hd2
    | some d0 =>
      rw [h] at hd2
      simp only [Option.map_some', Option.some.injEq] at hd2
      subst hd2
      simp only [LibraryListenerMethods.unregister, List.mem_filter] at hlp
      exact bne_iff_ne.mp hlp.2

/-- A shared dict whose dispatchers hold bindings of two libraries. -/
def demoMsMixed : MethodsDict := fun name =>
  some ⟨name, [("libA", demoOld), ("libB", demoProxyV2)], []⟩

/-- C9 witness: unregistering "libA" with the close flag runs the close
dispatcher over the pre-removal set; without the flag there is no close
output; the binding surviving in the close dispatcher is not owned by
"libA". -/
theorem unregister_close_then_remove_witness :
    ((demoRouter.unregister demoMsMixed "libA" true).1 =
      LibraryListenerMethods.notifyLibrary
        ⟨.close, [("libA", demoOld), ("libB", demoProxyV2)], []⟩ "libA") ∧
    ((demoRouter.unregister demoMsMixed "libA" false).1 = ([], [])) ∧
    ("libB" : String) ≠ "libA" :=
  ⟨(unregister_close_then_remove demoRouter demoMsMixed "libA").1
      ⟨.close, [("libA", demoOld), ("libB", demoProxyV2)], []⟩ rfl,
   (unregister_close_then_remove demoRouter demoMsMixed "libA").2.1,
   (unregister_close_then_remove demoRouter demoMsMixed "libA").2.2 true
     .close ⟨.close, [("libB", demoProxyV2)], []⟩ rfl
     ("libB", demoProxyV2) (List.Mem.head _)⟩

/-- C10: the start_suite view carries exactly the overrides tests, suites
and test_count read from the static data model, and looking those three
attributes up in the view yields the static values for every live result
object; the views of end_suite, start_test, end_test and body-item events
carry no overrides at all. -/
theorem start_suite_overrides
    (data : RunningSuite) (result : Obj) (d0 r0 : Obj) (bi : BodyItemData)
    (r : LibraryListeners) (ms : MethodsDict) :
    (startSuiteView data result).priority =
      [("tests", data.tests), ("suites", data.suites),
       ("test_count", data.test_count)] ∧
    (startSuiteView data result).get "tests" = some data.tests ∧
    (startSuiteView data result).get "suites" = some data.suites ∧
    (startSuiteView data result).get "test_count" = some data.test_count ∧
    r.start_suite ms data result =
      dispatchTo ms .start_suite (.combined (startSuiteView data result)) ∧
    (plainView d0 r0).priority = [] ∧
    r.end_suite ms d0 r0 =
      dispatchTo ms .end_suite (.combined (plainView d0 r0)) ∧
    r.start_test ms d0 r0 =
      dispatchTo ms .start_test (.combined (plainView d0 r0)) ∧
    r.end_test ms d0 r0 =
      dispatchTo ms .end_test (.combined (plainView d0 r0)) ∧
    (r.start_body_item ms bi r0 = ([], []) ∨
      r.start_body_item ms bi r0 =
        dispatchTo ms .start_keyword (.combined (plainView bi.obj r0))) ∧
    (r.end_body_item ms bi r0 = ([], []) ∨
      r.end_body_item ms bi r0 =
        dispatchTo ms .end_keyword (.combined (plainView bi.obj r0))) := by
  refine ⟨rfl, rfl, rfl, rfl, rfl, rfl, rfl, rfl, rfl, ?_, ?_⟩ <;>
    by_cases h : bi.type ≠ .IF_ELSE_ROOT ∧ bi.type ≠ .TRY_EXCEPT_ROOT
  · exact Or.inr (by simp [LibraryListeners.start_body_item, h])
  · exact Or.inl (by simp [LibraryListeners.start_body_item, h])
  · exact Or.inr (by simp [LibraryListeners.end_body_item, h])
  · exact Or.inl (by simp [LibraryListeners.end_body_item, h])

end OldListener
